import Mathlib

/-!
Verification of the gapless playback engine of `stream-client`
(`src/gapless_client.py`, class `GaplessPlayer`).

The player state is embedded shallowly: the two pygame mixer channels
become two explicit lane fields, the `preloaded_sounds` dict becomes an
association list with unique keys, and the network fetch
(`stream_song`) becomes an oracle `String → Option Sound` passed to
every operation that may fetch.  The three background threads of the
source (preload worker, position logger, transition monitor) are
modelled by exposing the body of each loop as a state-transition
function (`monitorTick`, `preloadNextSong`), to be interleaved freely;
the completion of a sound on a mixer channel is an environment event
(`laneFinish`).  The audio primitive is external: a lane is `idle`,
`playing` or `paused`, `Channel.get_busy()` is true for a playing or a
paused lane (SDL's paused channels still count as busy), and
`Channel.play` replaces whatever the lane held.
-/

namespace Gapless

/-- A track descriptor as returned by search: only the fields the engine
reads (`id`; `title` is display-only). -/
structure Song where
  id : String
  title : String
deriving DecidableEq, Repr

/-- An opaque decoded audio buffer handle (`pygame.mixer.Sound`); its
identity is all that matters, so it is represented by a tag chosen by
the fetch oracle. -/
abbrev Sound := String

/-- State of one mixer channel, as observable through the pygame
primitive: `get_busy` distinguishes `idle` from the other two. -/
inductive LaneState where
  | idle
  | playing (snd : Sound)
  | paused (snd : Sound)
deriving DecidableEq, Repr

/-- `Channel.get_busy()`: true while a sound is loaded and not finished,
including while paused (SDL's `Mix_Playing` does not check pause). -/
def LaneState.getBusy : LaneState → Bool
  | .idle => false
  | .playing _ => true
  | .paused _ => true

/-- `Channel.pause()`: a playing lane becomes paused; others unchanged. -/
def LaneState.pauseLane : LaneState → LaneState
  | .playing s => .paused s
  | l => l

/-- `Channel.unpause()`: a paused lane resumes playing; others unchanged. -/
def LaneState.unpauseLane : LaneState → LaneState
  | .paused s => .playing s
  | l => l

/-- Environment event: the sound on a playing lane plays to completion
and the channel goes idle.  A paused lane does not advance. -/
def LaneState.finishSound : LaneState → LaneState
  | .playing _ => .idle
  | l => l

/-- The mutable fields of `GaplessPlayer` that the gapless engine reads
and writes (`current_channel`, `channels`, `queue`,
`current_song_index`, `is_playing`, `preloaded_sounds`,
`stop_monitoring`). -/
structure PlayerState where
  currentChannel : Nat
  chan0 : LaneState
  chan1 : LaneState
  queue : List Song
  currentSongIndex : Nat
  isPlaying : Bool
  preloadedSounds : List (String × Sound)
  stopMonitoring : Bool
deriving DecidableEq, Repr

/-- The state `__init__` establishes. -/
def initialState : PlayerState :=
  { currentChannel := 0
    chan0 := .idle
    chan1 := .idle
    queue := []
    currentSongIndex := 0
    isPlaying := false
    preloadedSounds := []
    stopMonitoring := false }

/-- `self.channels[i]` for the two indices the source uses. -/
def PlayerState.getChannel (s : PlayerState) (i : Nat) : LaneState :=
  if i = 0 then s.chan0 else s.chan1

/-- Write lane `i`. -/
def PlayerState.setChannel (s : PlayerState) (i : Nat) (l : LaneState) : PlayerState :=
  if i = 0 then { s with chan0 := l } else { s with chan1 := l }

/-- `self.preloaded_sounds[id]` (dict lookup; `None` when absent). -/
def cacheLookup (c : List (String × Sound)) (trackId : String) : Option Sound :=
  match c with
  | [] => none
  | (k, v) :: rest => if k = trackId then some v else cacheLookup rest trackId

/-- `del self.preloaded_sounds[id]`. -/
def cacheDelete (c : List (String × Sound)) (trackId : String) : List (String × Sound) :=
  match c with
  | [] => []
  | (k, v) :: rest =>
    if k = trackId then cacheDelete rest trackId else (k, v) :: cacheDelete rest trackId

/-- `self.preloaded_sounds[id] = sound` (dict assignment overwrites). -/
def cacheInsert (c : List (String × Sound)) (trackId : String) (snd : Sound) :
    List (String × Sound) :=
  (trackId, snd) :: cacheDelete c trackId

/-- Lines 126-135 of `_play_current_song`: take the buffer from the
cache (deleting the entry) or fall back to a synchronous `stream_song`
call; returns the obtained buffer (if any) and the resulting cache. -/
def takeOrFetch (fetch : String → Option Sound) (c : List (String × Sound))
    (trackId : String) : Option Sound × List (String × Sound) :=
  match cacheLookup c trackId with
  | some snd => (some snd, cacheDelete c trackId)
  | none =>
    match fetch trackId with
    | some snd => (some snd, c)
    | none => (none, c)

/-- `_play_current_song`: guard on a valid cursor, obtain the buffer for
`queue[current_song_index]` (cache hit deletes the entry; miss falls
back to `stream_song`), and on success play it on the current channel.
On a failed load the method returns without playing (the spawned
preload thread is modelled by the separately interleavable
`preloadNextSong`). -/
def playCurrentSong (fetch : String → Option Sound) (s : PlayerState) : PlayerState :=
  if s.queue = [] ∨ s.queue.length ≤ s.currentSongIndex then s
  else
    match s.queue.get? s.currentSongIndex with
    | none => s
    | some song =>
      match takeOrFetch fetch s.preloadedSounds song.id with
      | (none, _) => s
      | (some snd, cache') =>
        PlayerState.setChannel { s with preloadedSounds := cache' }
          s.currentChannel (.playing snd)

/-- `_advance_to_next_song`: increment the cursor; at the end of the
queue mark the session over, otherwise flip to the other channel and
play the next song. -/
def advanceToNextSong (fetch : String → Option Sound) (s : PlayerState) : PlayerState :=
  if s.queue.length ≤ s.currentSongIndex + 1 then
    { s with currentSongIndex := s.currentSongIndex + 1, isPlaying := false }
  else
    playCurrentSong fetch
      { s with currentSongIndex := s.currentSongIndex + 1,
               currentChannel := 1 - s.currentChannel }

/-- One iteration of the `_monitor_playback` loop: under the loop
condition (`is_playing and current_song_index < len(queue)`), advance
when the current channel is no longer busy. -/
def monitorTick (fetch : String → Option Sound) (s : PlayerState) : PlayerState :=
  if s.isPlaying = true ∧ s.currentSongIndex < s.queue.length then
    if (s.getChannel s.currentChannel).getBusy = true then s
    else advanceToNextSong fetch s
  else s

/-- `preload_next_song` (also the body of `_preload_worker`): when a
next song exists and is not cached, fetch it and cache it; fetch
failure leaves the state unchanged. -/
def preloadNextSong (fetch : String → Option Sound) (s : PlayerState) : PlayerState :=
  if s.queue = [] ∨ s.queue.length - 1 ≤ s.currentSongIndex then s
  else
    match s.queue.get? (s.currentSongIndex + 1) with
    | none => s
    | some nextSong =>
      if (cacheLookup s.preloadedSounds nextSong.id).isSome then s
      else
        match fetch nextSong.id with
        | some snd =>
          { s with preloadedSounds := cacheInsert s.preloadedSounds nextSong.id snd }
        | none => s

/-- `play_queue_gapless`: an empty list returns at once; otherwise
install the queue and cursor, set `is_playing`, clear
`stop_monitoring`, and play the first song.  The launched preload and
monitor threads are modelled by interleaving `preloadNextSong` and
`monitorTick`. -/
def playQueueGapless (fetch : String → Option Sound) (songs : List Song)
    (startIndex : Nat) (s : PlayerState) : PlayerState :=
  if songs = [] then s
  else
    playCurrentSong fetch
      { s with queue := songs
               currentSongIndex := startIndex
               isPlaying := true
               stopMonitoring := false }

/-- `pause`: pause both channels; no other field is touched (the source
keeps no separate paused flag). -/
def pause (s : PlayerState) : PlayerState :=
  { s with chan0 := s.chan0.pauseLane, chan1 := s.chan1.pauseLane }

/-- `resume`: unpause both channels. -/
def resume (s : PlayerState) : PlayerState :=
  { s with chan0 := s.chan0.unpauseLane, chan1 := s.chan1.unpauseLane }

/-- `stop`: clear `is_playing`, set `stop_monitoring`, stop both
channels, clear the cache.  `queue`, `current_song_index` and
`current_channel` are left as they were. -/
def stop (s : PlayerState) : PlayerState :=
  { s with isPlaying := false
           stopMonitoring := true
           chan0 := .idle
           chan1 := .idle
           preloadedSounds := [] }

/-- Environment event: the sound playing on channel `i` completes. -/
def laneFinish (i : Nat) (s : PlayerState) : PlayerState :=
  s.setChannel i ((s.getChannel i).finishSound)

/-- Iterate the monitor loop a given number of times. -/
def monitorRun (fetch : String → Option Sound) : Nat → PlayerState → PlayerState
  | 0, s => s
  | n + 1, s => monitorRun fetch n (monitorTick fetch s)

/-- Iterate `_advance_to_next_song` (one application per completed
transition). -/
def advanceIter (fetch : String → Option Sound) : Nat → PlayerState → PlayerState
  | 0, s => s
  | n + 1, s => advanceIter fetch n (advanceToNextSong fetch s)

/-- The operations that can act on the state during a session: the two
background loop bodies, the user commands, and sound-completion
events.  (`play_queue_gapless` starts a session and is treated
separately.) -/
inductive SessionOp where
  | monitor
  | preload
  | pauseCmd
  | resumeCmd
  | stopCmd
  | finish (i : Nat)
deriving DecidableEq, Repr

/-- Apply one session operation. -/
def applyOp (fetch : String → Option Sound) : SessionOp → PlayerState → PlayerState
  | .monitor, s => monitorTick fetch s
  | .preload, s => preloadNextSong fetch s
  | .pauseCmd, s => pause s
  | .resumeCmd, s => resume s
  | .stopCmd, s => stop s
  | .finish i, s => laneFinish i s

/-!  The `stream_song` network call itself (claim C5): the HTTP request
it builds and how it maps the response to a result. -/

/-- Outcome of an HTTP GET as the client observes it: either a raised
transport error (`requests` exception) or a response with a status code
and a body. -/
inductive HttpResult where
  | transportError
  | response (status : Nat) (content : List Nat)
deriving DecidableEq, Repr

/-- An HTTP request as issued by `requests.Session.get`: the url and the
`timeout` argument (absent means no timeout was passed). -/
structure HttpRequest where
  url : String
  timeout : Option Nat
deriving DecidableEq, Repr

/-- The request `stream_song` issues:
`self.session.get(f"{self.server_url}/stream/{song_id}")` — note no
`timeout` argument is supplied. -/
def streamSongRequest (serverUrl songId : String) : HttpRequest :=
  { url := serverUrl ++ "/stream/" ++ songId, timeout := none }

/-- `stream_song`, over an oracle for the HTTP transport and one for the
audio decoder (`pygame.mixer.Sound`, which may fail on malformed
bytes): a transport error, a non-200 status, or a decode failure each
yield `none`; the enclosing `try/except` turns every failure into a
returned `None`, never an exception to the caller. -/
def streamSong (respond : HttpRequest → HttpResult) (mkSound : List Nat → Option Sound)
    (serverUrl songId : String) : Option Sound :=
  match respond (streamSongRequest serverUrl songId) with
  | .transportError => none
  | .response status content =>
    if status ≠ 200 then none
    else mkSound content

/-!  Concrete inputs used by witnesses and counterexamples. -/

/-- Fetch oracle that always succeeds, returning a buffer tagged with
the track id. -/
def fetchAll : String → Option Sound := fun trackId => some trackId

/-- Fetch oracle that always fails (every `stream_song` returns None). -/
def fetchNone : String → Option Sound := fun _ => none

def idA : String := "A"

def idB : String := "B"

def idC : String := "C"

def songA : Song := { id := idA, title := idA }

def songB : Song := { id := idB, title := idB }

def songC : Song := { id := idC, title := idC }

/-- A fresh player that has started the two-song queue `[A, B]`:
lane 0 is playing `A`, the cursor is 0, `is_playing` is set. -/
def sPlay : PlayerState := playQueueGapless fetchAll [songA, songB] 0 initialState

/-- `sPlay` after the sound on lane 0 completed. -/
def sFin : PlayerState := laneFinish 0 sPlay

/-- The queue `[A, B]` run to natural completion: play, finish `A`,
transition to lane 1, finish `B`, terminal tick.  Ends with
`current_song_index = 2`, `current_channel = 1`, `is_playing = false`. -/
def sDone : PlayerState :=
  monitorTick fetchAll (laneFinish 1 (monitorTick fetchAll sFin))

/-- A queue whose adjacent entries share one id, just after the preload
worker's first pass: lane 0 plays `A` while the cache also holds `A`. -/
def sDup : PlayerState :=
  preloadNextSong fetchAll (playQueueGapless fetchAll [songA, songA] 0 initialState)

/-- A one-song queue started and finished but not yet observed by the
monitor: cursor 0, queue length 1, lane 0 idle. -/
def sLast : PlayerState := laneFinish 0 (playQueueGapless fetchAll [songA] 0 initialState)

/-- HTTP oracle answering every request with a 404 and an empty body. -/
def respond404 : HttpRequest → HttpResult := fun _ => .response 404 []

/-- Decoder oracle that rejects every payload. -/
def mkSoundNone : List Nat → Option Sound := fun _ => none

def demoServer : String := "http://pi-server:8080"

def demoSongId : String := "song1"

/-- A running one-song session whose current track is already prefetched:
the cache holds the buffer for `A` and lane 0 is about to receive it. -/
def sCached : PlayerState :=
  { initialState with queue := [songA], isPlaying := true,
                      preloadedSounds := [(idA, idA)] }

/-- A queue started against a fetcher that always fails: `is_playing` was
set but nothing could be played, so both lanes stay idle and the cache
stays empty. -/
def sFailStart : PlayerState := playQueueGapless fetchNone [songA, songB] 0 initialState

/-!  Basic lemmas about the embedded operations. -/

@[simp]
theorem setChannel_queue (s : PlayerState) (i : Nat) (l : LaneState) :
    (s.setChannel i l).queue = s.queue := by
  unfold PlayerState.setChannel; split <;> rfl

@[simp]
theorem setChannel_currentSongIndex (s : PlayerState) (i : Nat) (l : LaneState) :
    (s.setChannel i l).currentSongIndex = s.currentSongIndex := by
  unfold PlayerState.setChannel; split <;> rfl

@[simp]
theorem setChannel_currentChannel (s : PlayerState) (i : Nat) (l : LaneState) :
    (s.setChannel i l).currentChannel = s.currentChannel := by
  unfold PlayerState.setChannel; split <;> rfl

@[simp]
theorem setChannel_isPlaying (s : PlayerState) (i : Nat) (l : LaneState) :
    (s.setChannel i l).isPlaying = s.isPlaying := by
  unfold PlayerState.setChannel; split <;> rfl

@[simp]
theorem setChannel_preloadedSounds (s : PlayerState) (i : Nat) (l : LaneState) :
    (s.setChannel i l).preloadedSounds = s.preloadedSounds := by
  unfold PlayerState.setChannel; split <;> rfl

@[simp]
theorem setChannel_stopMonitoring (s : PlayerState) (i : Nat) (l : LaneState) :
    (s.setChannel i l).stopMonitoring = s.stopMonitoring := by
  unfold PlayerState.setChannel; split <;> rfl

@[simp]
theorem getChannel_setChannel_same (s : PlayerState) (i : Nat) (l : LaneState) :
    (s.setChannel i l).getChannel i = l := by
  unfold PlayerState.setChannel PlayerState.getChannel
  by_cases h : i = 0 <;> simp [h]

theorem getChannel_pause (s : PlayerState) (i : Nat) :
    (pause s).getChannel i = (s.getChannel i).pauseLane := by
  unfold pause PlayerState.getChannel; split <;> rfl

theorem getChannel_of_idle (s : PlayerState) (h0 : s.chan0 = .idle)
    (h1 : s.chan1 = .idle) (i : Nat) : s.getChannel i = .idle := by
  unfold PlayerState.getChannel; split <;> assumption

theorem cacheLookup_cacheDelete_self (c : List (String × Sound)) (trackId : String) :
    cacheLookup (cacheDelete c trackId) trackId = none := by
  induction c with
  | nil => rfl
  | cons p rest ih =>
    obtain ⟨k, v⟩ := p
    unfold cacheDelete
    by_cases h : k = trackId
    · simpa [h] using ih
    · simpa [cacheLookup, h] using ih

theorem playCurrentSong_queue (f : String → Option Sound) (s : PlayerState) :
    (playCurrentSong f s).queue = s.queue := by
  unfold playCurrentSong; (repeat' split) <;> simp

theorem playCurrentSong_currentSongIndex (f : String → Option Sound) (s : PlayerState) :
    (playCurrentSong f s).currentSongIndex = s.currentSongIndex := by
  unfold playCurrentSong; (repeat' split) <;> simp

theorem playCurrentSong_currentChannel (f : String → Option Sound) (s : PlayerState) :
    (playCurrentSong f s).currentChannel = s.currentChannel := by
  unfold playCurrentSong; (repeat' split) <;> simp

theorem playCurrentSong_isPlaying (f : String → Option Sound) (s : PlayerState) :
    (playCurrentSong f s).isPlaying = s.isPlaying := by
  unfold playCurrentSong; (repeat' split) <;> simp

theorem playCurrentSong_fail (f : String → Option Sound) (s : PlayerState) (song : Song)
    (hget : s.queue.get? s.currentSongIndex = some song)
    (hfail : takeOrFetch f s.preloadedSounds song.id = (none, s.preloadedSounds)) :
    playCurrentSong f s = s := by
  have hlt : s.currentSongIndex < s.queue.length := (List.get?_eq_some.mp hget).1
  have hne : s.queue ≠ [] := List.ne_nil_of_length_pos (by omega)
  unfold playCurrentSong
  rw [if_neg (by push_neg; exact ⟨hne, by omega⟩)]
  simp only [hget, hfail]

theorem playCurrentSong_success (f : String → Option Sound) (s : PlayerState)
    (song : Song) (snd : Sound) (cache' : List (String × Sound))
    (hget : s.queue.get? s.currentSongIndex = some song)
    (hok : takeOrFetch f s.preloadedSounds song.id = (some snd, cache')) :
    playCurrentSong f s =
      PlayerState.setChannel { s with preloadedSounds := cache' }
        s.currentChannel (.playing snd) := by
  have hlt : s.currentSongIndex < s.queue.length := (List.get?_eq_some.mp hget).1
  have hne : s.queue ≠ [] := List.ne_nil_of_length_pos (by omega)
  unfold playCurrentSong
  rw [if_neg (by push_neg; exact ⟨hne, by omega⟩)]
  simp only [hget, hok]

theorem monitorTick_of_not_running (f : String → Option Sound) (s : PlayerState)
    (h : s.isPlaying = false) : monitorTick f s = s := by
  unfold monitorTick
  rw [if_neg (by simp [h])]

theorem monitorTick_of_terminal (f : String → Option Sound) (s : PlayerState)
    (h : s.queue.length ≤ s.currentSongIndex) : monitorTick f s = s := by
  unfold monitorTick
  rw [if_neg (by push_neg; intro _; omega)]

theorem monitorTick_of_busy (f : String → Option Sound) (s : PlayerState)
    (h : (s.getChannel s.currentChannel).getBusy = true) : monitorTick f s = s := by
  unfold monitorTick
  by_cases hg : s.isPlaying = true ∧ s.currentSongIndex < s.queue.length
  · rw [if_pos hg, if_pos h]
  · rw [if_neg hg]

theorem monitorTick_advances (f : String → Option Sound) (s : PlayerState)
    (hp : s.isPlaying = true) (hc : s.currentSongIndex < s.queue.length)
    (hb : (s.getChannel s.currentChannel).getBusy = false) :
    monitorTick f s = advanceToNextSong f s := by
  unfold monitorTick
  rw [if_pos ⟨hp, hc⟩, if_neg (by simp [hb])]

theorem advance_terminal (f : String → Option Sound) (s : PlayerState)
    (h : s.queue.length ≤ s.currentSongIndex + 1) :
    advanceToNextSong f s =
      { s with currentSongIndex := s.currentSongIndex + 1, isPlaying := false } := by
  unfold advanceToNextSong
  rw [if_pos h]

theorem advance_nonterminal (f : String → Option Sound) (s : PlayerState)
    (h : s.currentSongIndex + 1 < s.queue.length) :
    advanceToNextSong f s =
      playCurrentSong f
        { s with currentSongIndex := s.currentSongIndex + 1,
                 currentChannel := 1 - s.currentChannel } := by
  unfold advanceToNextSong
  rw [if_neg (by omega)]

theorem monitorRun_of_not_running (f : String → Option Sound) (n : Nat) (s : PlayerState)
    (h : s.isPlaying = false) : monitorRun f n s = s := by
  induction n with
  | zero => rfl
  | succ n ih => simpa [monitorRun, monitorTick_of_not_running f s h] using ih

theorem preloadNextSong_queue (f : String → Option Sound) (s : PlayerState) :
    (preloadNextSong f s).queue = s.queue := by
  unfold preloadNextSong; (repeat' split) <;> simp

theorem preloadNextSong_currentSongIndex (f : String → Option Sound) (s : PlayerState) :
    (preloadNextSong f s).currentSongIndex = s.currentSongIndex := by
  unfold preloadNextSong; (repeat' split) <;> simp

theorem preloadNextSong_isPlaying (f : String → Option Sound) (s : PlayerState) :
    (preloadNextSong f s).isPlaying = s.isPlaying := by
  unfold preloadNextSong; (repeat' split) <;> simp

/-!  Claims. -/

/-- Claim C10: calling `play_queue_gapless` with an empty track list
returns immediately: every field of the player state (queue, cursor,
active lane, `is_playing`, cache, both channels) is unchanged and no
playback or background activity is started. -/
theorem c10_empty_queue (fetch : String → Option Sound) (startIndex : Nat)
    (s : PlayerState) : playQueueGapless fetch [] startIndex s = s := by
  unfold playQueueGapless
  rw [if_pos rfl]

/-- Claim C6, counterexample: after running the queue `[A, B]` to
completion and calling `stop`, the cursor is still `2`, the channel
selector still `1` and the queue still `[A, B]` — not the initial
values `0`, `0`, `[]` the claim requires (`stop` in the source never
reassigns `queue`, `current_song_index` or `current_channel`, and the
source has no `paused` field at all). -/
theorem c6_not_reset :
    (stop sDone).currentSongIndex = 2 ∧ (stop sDone).currentChannel = 1
    ∧ (stop sDone).queue = [songA, songB] := by
  exact ⟨rfl, rfl, rfl⟩

/-- Claim C6, amended: after `stop()` both lanes are halted (idle), the
prefetch cache is empty, `is_playing` is false and `stop_monitoring` is
set, but `queue`, `current_song_index` and `current_channel` keep their
pre-stop values; no `paused` field exists to reset. -/
theorem c6_stop_effects (s : PlayerState) :
    (stop s).chan0 = .idle ∧ (stop s).chan1 = .idle
    ∧ (stop s).preloadedSounds = [] ∧ (stop s).isPlaying = false
    ∧ (stop s).stopMonitoring = true
    ∧ (stop s).queue = s.queue
    ∧ (stop s).currentSongIndex = s.currentSongIndex
    ∧ (stop s).currentChannel = s.currentChannel := by
  exact ⟨rfl, rfl, rfl, rfl, rfl, rfl, rfl, rfl⟩

/-- Claim C5, counterexample: the network call of `stream_song` carries
no bounded timeout — the `requests.Session.get` call is issued without
a `timeout` argument, so the request's timeout field is `none` at this
concrete track id, refuting "applies a bounded timeout to its network
call". -/
theorem c5_no_timeout :
    (streamSongRequest demoServer demoSongId).timeout = none := rfl

/-- Claim C5, amended: `stream_song` issues its network call without
any timeout; on a transport error or a non-success HTTP status it
returns `None` to its caller rather than raising into caller control
flow (the enclosing `try/except` catches every exception). -/
theorem c5_error_to_none (respond : HttpRequest → HttpResult)
    (mkSound : List Nat → Option Sound) (serverUrl songId : String) :
    (streamSongRequest serverUrl songId).timeout = none
    ∧ (respond (streamSongRequest serverUrl songId) = .transportError →
        streamSong respond mkSound serverUrl songId = none)
    ∧ (∀ status content,
        respond (streamSongRequest serverUrl songId) = .response status content →
        status ≠ 200 → streamSong respond mkSound serverUrl songId = none) := by
  refine ⟨rfl, ?_, ?_⟩
  · intro h
    unfold streamSong
    rw [h]
  · intro status content h hs
    unfold streamSong
    rw [h]
    simp [hs]

/-- Claim C5, witness: a server answering 404 makes `stream_song`
return `None`. -/
theorem c5_witness :
    streamSong respond404 mkSoundNone demoServer demoSongId = none :=
  (c5_error_to_none respond404 mkSoundNone demoServer demoSongId).2.2 404 []
    rfl (by decide)

/-- Claim C7, counterexample: with the queue `[A, A]` (the same track id
in adjacent positions), after start and one pass of the preload worker,
track id `A` is in the prefetch cache while the buffer for `A` is also
backing the active lane — the exclusivity invariant fails in a
reachable state. -/
theorem c7_dup_violation :
    sDup.getChannel sDup.currentChannel = .playing idA
    ∧ cacheLookup sDup.preloadedSounds idA = some idA := by
  exact ⟨rfl, rfl⟩

/-- Claim C7, amended: the hand-off step itself is exclusive — when
`_play_current_song` takes a cached buffer, the lane starts playing
that buffer and the cache entry for the track is deleted in the same
step, so immediately after the hand-off the track id is absent from the
cache.  The global invariant over all reachable states fails (see the
counterexample): the preload worker may later re-insert the id that is
backing the active lane when adjacent queue entries share an id. -/
theorem c7_handoff_exclusive (fetch : String → Option Sound) (s : PlayerState)
    (song : Song) (snd : Sound)
    (hget : s.queue.get? s.currentSongIndex = some song)
    (hcache : cacheLookup s.preloadedSounds song.id = some snd) :
    (playCurrentSong fetch s).getChannel s.currentChannel = .playing snd
    ∧ cacheLookup (playCurrentSong fetch s).preloadedSounds song.id = none := by
  have hok : takeOrFetch fetch s.preloadedSounds song.id =
      (some snd, cacheDelete s.preloadedSounds song.id) := by
    unfold takeOrFetch
    rw [hcache]
  rw [playCurrentSong_success fetch s song snd _ hget hok]
  refine ⟨getChannel_setChannel_same _ _ _, ?_⟩
  simp [cacheLookup_cacheDelete_self]

/-- Claim C7, witness: a concrete hand-off of the cached buffer for `A`. -/
theorem c7_witness :
    (playCurrentSong fetchNone sCached).getChannel sCached.currentChannel
        = .playing idA
    ∧ cacheLookup (playCurrentSong fetchNone sCached).preloadedSounds songA.id
        = none :=
  c7_handoff_exclusive fetchNone sCached songA idA rfl rfl

/-- Claim C3: a monitor tick on a paused session performs no transition.
In the source the gating is indirect: a paused mixer channel still
reports busy, so the monitor never sees a finished signal while paused.
After `pause()` on a session whose active lane is playing, a tick
leaves the whole state (in particular cursor and active lane)
unchanged, while `is_playing` and `stop_monitoring` are untouched by
`pause`, so the preload worker and monitor keep running. -/
theorem c3_paused_gates_transitions (fetch : String → Option Sound) (s : PlayerState)
    (snd : Sound) (h : s.getChannel s.currentChannel = .playing snd) :
    monitorTick fetch (pause s) = pause s
    ∧ (monitorTick fetch (pause s)).currentSongIndex = s.currentSongIndex
    ∧ (monitorTick fetch (pause s)).currentChannel = s.currentChannel
    ∧ (pause s).isPlaying = s.isPlaying
    ∧ (pause s).stopMonitoring = s.stopMonitoring := by
  have hb : ((pause s).getChannel (pause s).currentChannel).getBusy = true := by
    have hch : (pause s).currentChannel = s.currentChannel := rfl
    rw [hch, getChannel_pause, h]
    rfl
  have hid := monitorTick_of_busy fetch (pause s) hb
  refine ⟨hid, ?_, ?_, rfl, rfl⟩
  · rw [hid]; rfl
  · rw [hid]; rfl

/-- Claim C3, witness: pausing the freshly started `[A, B]` session. -/
theorem c3_witness :
    monitorTick fetchAll (pause sPlay) = pause sPlay
    ∧ (monitorTick fetchAll (pause sPlay)).currentSongIndex = sPlay.currentSongIndex
    ∧ (monitorTick fetchAll (pause sPlay)).currentChannel = sPlay.currentChannel
    ∧ (pause sPlay).isPlaying = sPlay.isPlaying
    ∧ (pause sPlay).stopMonitoring = sPlay.stopMonitoring :=
  c3_paused_gates_transitions fetchAll sPlay idA rfl

/-- Claim C2, counterexample: `play_queue_gapless` never resets
`current_channel`, so a call made after a previous session ended on
lane 1 plays `queue[start_index]` on lane 1, not lane 0, refuting "is
played on lane 0" for that call (the state `sDone` is reachable: start
`[A, B]` on a fresh player, let both tracks finish).  Lane 0 stays
idle and lane 1 receives the track. -/
theorem c2_lane_counterexample :
    (playQueueGapless fetchAll [songC] 0 sDone).chan0 = .idle
    ∧ (playQueueGapless fetchAll [songC] 0 sDone).chan1 = .playing idC
    ∧ (playQueueGapless fetchAll [songC] 0 sDone).currentSongIndex = 0 := by
  exact ⟨rfl, rfl, rfl⟩

/-- Claim C2, amended: for a call to `play_queue_gapless` made from the
initial player state (channel selector 0, both lanes idle, empty cache
— the state the claim's "lane 0" presumes) with a valid start index
whose track the fetcher can deliver, the cursor is initialized to
`start_index`, `queue[start_index]` is played on lane 0, and exactly
lane 0 is playing while lane 1 is idle. -/
theorem c2_start_from_initial (fetch : String → Option Sound) (songs : List Song)
    (startIndex : Nat) (song : Song) (snd : Sound)
    (hget : songs.get? startIndex = some song)
    (hfetch : fetch song.id = some snd) :
    (playQueueGapless fetch songs startIndex initialState).currentSongIndex = startIndex
    ∧ (playQueueGapless fetch songs startIndex initialState).chan0 = .playing snd
    ∧ (playQueueGapless fetch songs startIndex initialState).chan1 = .idle
    ∧ (playQueueGapless fetch songs startIndex initialState).currentChannel = 0
    ∧ (playQueueGapless fetch songs startIndex initialState).isPlaying = true := by
  have hlt : startIndex < songs.length := (List.get?_eq_some.mp hget).1
  have hne : songs ≠ [] := List.ne_nil_of_length_pos (by omega)
  have hok : takeOrFetch fetch ([] : List (String × Sound)) song.id
      = (some snd, ([] : List (String × Sound))) := by
    unfold takeOrFetch
    simp [cacheLookup, hfetch]
  unfold playQueueGapless
  rw [if_neg hne]
  rw [playCurrentSong_success fetch _ song snd []
    (by simpa [initialState] using hget) (by simpa [initialState] using hok)]
  simp [PlayerState.setChannel, initialState]

/-- Claim C2, witness: starting `[A, B]` at index 0 on a fresh player. -/
theorem c2_witness :
    (playQueueGapless fetchAll [songA, songB] 0 initialState).currentSongIndex = 0
    ∧ (playQueueGapless fetchAll [songA, songB] 0 initialState).chan0 = .playing idA
    ∧ (playQueueGapless fetchAll [songA, songB] 0 initialState).chan1 = .idle
    ∧ (playQueueGapless fetchAll [songA, songB] 0 initialState).currentChannel = 0
    ∧ (playQueueGapless fetchAll [songA, songB] 0 initialState).isPlaying = true :=
  c2_start_from_initial fetchAll [songA, songB] 0 songA idA rfl rfl

/-- Claim C1: when the monitor of an active session (`is_playing`,
cursor in range) observes the active lane not busy, it advances the
cursor by exactly one; if the new cursor equals the queue length the
session is marked terminal (`is_playing = false`) and neither lane is
started or changed; otherwise the channel selector flips to
`1 - current_channel` and, whenever the buffer for the new
`queue[cursor]` is obtainable (cache take, falling back to a
synchronous fetch — the unobtainable case is claim C4), it is played on
the new active lane. -/
theorem c1_transition (fetch : String → Option Sound) (s : PlayerState)
    (hrun : s.isPlaying = true)
    (hcur : s.currentSongIndex < s.queue.length)
    (hfin : (s.getChannel s.currentChannel).getBusy = false) :
    (monitorTick fetch s).currentSongIndex = s.currentSongIndex + 1
    ∧ (s.queue.length = s.currentSongIndex + 1 →
        (monitorTick fetch s).isPlaying = false
        ∧ (monitorTick fetch s).chan0 = s.chan0
        ∧ (monitorTick fetch s).chan1 = s.chan1
        ∧ (monitorTick fetch s).currentChannel = s.currentChannel)
    ∧ (∀ song snd cache',
        s.currentSongIndex + 1 < s.queue.length →
        s.queue.get? (s.currentSongIndex + 1) = some song →
        takeOrFetch fetch s.preloadedSounds song.id = (some snd, cache') →
        (monitorTick fetch s).currentChannel = 1 - s.currentChannel
        ∧ (monitorTick fetch s).getChannel (1 - s.currentChannel) = .playing snd) := by
  rw [monitorTick_advances fetch s hrun hcur hfin]
  refine ⟨?_, ?_, ?_⟩
  · by_cases h : s.queue.length ≤ s.currentSongIndex + 1
    · rw [advance_terminal fetch s h]
    · rw [advance_nonterminal fetch s (by omega)]
      rw [playCurrentSong_currentSongIndex]
  · intro h
    rw [advance_terminal fetch s (by omega)]
    exact ⟨rfl, rfl, rfl, rfl⟩
  · intro song snd cache' hlt hget hok
    rw [advance_nonterminal fetch s hlt]
    rw [playCurrentSong_success fetch
      { s with currentSongIndex := s.currentSongIndex + 1,
               currentChannel := 1 - s.currentChannel } song snd cache' hget hok]
    refine ⟨?_, ?_⟩
    · rw [setChannel_currentChannel]
    · exact getChannel_setChannel_same _ _ _

/-- Claim C1, witness: `[A, B]` with `A` finished — the tick flips to
lane 1 and plays the fetched buffer for `B` there. -/
theorem c1_witness :
    (monitorTick fetchAll sFin).currentChannel = 1 - sFin.currentChannel
    ∧ (monitorTick fetchAll sFin).getChannel (1 - sFin.currentChannel)
        = .playing idB :=
  (c1_transition fetchAll sFin rfl (by decide) rfl).2.2 songB idB []
    (by decide) rfl rfl

theorem advanceIter_parity (fetch : String → Option Sound) (n : Nat) :
    ∀ s : PlayerState, s.currentChannel ≤ 1 →
      s.currentSongIndex + n < s.queue.length →
      (advanceIter fetch n s).currentChannel = (s.currentChannel + n) % 2 := by
  induction n with
  | zero =>
    intro s hch _
    simp only [advanceIter]
    omega
  | succ n ih =>
    intro s hch hlen
    have hstep : s.currentSongIndex + 1 < s.queue.length := by omega
    simp only [advanceIter]
    rw [advance_nonterminal fetch s hstep]
    have hch2 : (playCurrentSong fetch
        { s with currentSongIndex := s.currentSongIndex + 1,
                 currentChannel := 1 - s.currentChannel }).currentChannel ≤ 1 := by
      rw [playCurrentSong_currentChannel]
      show 1 - s.currentChannel ≤ 1
      omega
    have hlen2 : (playCurrentSong fetch
        { s with currentSongIndex := s.currentSongIndex + 1,
                 currentChannel := 1 - s.currentChannel }).currentSongIndex + n
        < (playCurrentSong fetch
        { s with currentSongIndex := s.currentSongIndex + 1,
                 currentChannel := 1 - s.currentChannel }).queue.length := by
      rw [playCurrentSong_currentSongIndex, playCurrentSong_queue]
      show s.currentSongIndex + 1 + n < s.queue.length
      omega
    rw [ih _ hch2 hlen2, playCurrentSong_currentChannel]
    show (1 - s.currentChannel + n) % 2 = (s.currentChannel + (n + 1)) % 2
    omega

/-- Claim C8: starting from lane 0, after `N` completed (non-terminal)
transitions — `N` applications of `_advance_to_next_song` that each
stay inside the queue — the channel selector equals `N mod 2`; no other
operation writes `current_channel`. -/
theorem c8_lane_parity (fetch : String → Option Sound) (s : PlayerState) (n : Nat)
    (h0 : s.currentChannel = 0)
    (hn : s.currentSongIndex + n < s.queue.length) :
    (advanceIter fetch n s).currentChannel = n % 2 := by
  have h := advanceIter_parity fetch n s (by omega) hn
  rwa [h0, Nat.zero_add] at h

/-- Claim C8, witness: one completed transition from lane 0 lands on
lane `1 = 1 mod 2`. -/
theorem c8_witness : (advanceIter fetchAll 1 sPlay).currentChannel = 1 % 2 :=
  c8_lane_parity fetchAll sPlay 1 rfl (by decide)

theorem allFailRun (n : Nat) :
    ∀ s : PlayerState, s.isPlaying = true → s.chan0 = .idle → s.chan1 = .idle →
      s.preloadedSounds = [] → s.queue.length = s.currentSongIndex + n → 1 ≤ n →
      (monitorRun fetchNone n s).currentSongIndex = s.queue.length
      ∧ (monitorRun fetchNone n s).isPlaying = false
      ∧ (monitorRun fetchNone n s).chan0 = .idle
      ∧ (monitorRun fetchNone n s).chan1 = .idle := by
  induction n with
  | zero =>
    intro s _ _ _ _ _ h
    omega
  | succ n ih =>
    intro s hp h0 h1 hc hlen _
    have hb : (s.getChannel s.currentChannel).getBusy = false := by
      rw [getChannel_of_idle s h0 h1]
      rfl
    have hcur : s.currentSongIndex < s.queue.length := by omega
    have htick := monitorTick_advances fetchNone s hp hcur hb
    by_cases hterm : n = 0
    · subst hterm
      simp only [monitorRun]
      rw [htick, advance_terminal fetchNone s (by omega)]
      refine ⟨?_, rfl, h0, h1⟩
      show s.currentSongIndex + 1 = s.queue.length
      omega
    · have hlt : s.currentSongIndex + 1 < s.queue.length := by omega
      obtain ⟨song, hsong⟩ : ∃ song, s.queue.get? (s.currentSongIndex + 1) = some song :=
        ⟨_, List.get?_eq_get (by omega)⟩
      have hfail : takeOrFetch fetchNone s.preloadedSounds song.id
          = (none, s.preloadedSounds) := by
        rw [hc]
        rfl
      have hplay := playCurrentSong_fail fetchNone
        { s with currentSongIndex := s.currentSongIndex + 1,
                 currentChannel := 1 - s.currentChannel } song hsong hfail
      simp only [monitorRun]
      rw [htick, advance_nonterminal fetchNone s hlt, hplay]
      have hres := ih
        { s with currentSongIndex := s.currentSongIndex + 1,
                 currentChannel := 1 - s.currentChannel } hp h0 h1 hc
        (by show s.queue.length = s.currentSongIndex + 1 + n; omega) (by omega)
      exact hres

/-- Claim C4: a track whose buffer is neither cached nor fetchable at
transition time is skipped — the advance leaves the lanes untouched and
the very next tick advances the cursor again (the failure is treated
like an immediate finished event); and a queue all of whose fetches
fail drives the cursor to the terminal position with `is_playing`
false and both lanes idle.  The embedding is a total function into
states, mirroring that the source path returns normally (prints and
falls through) instead of raising. -/
theorem c4_fetch_failure_skips :
    (∀ (fetch : String → Option Sound) (s : PlayerState) (song : Song),
      s.isPlaying = true → s.chan0 = .idle → s.chan1 = .idle →
      s.currentSongIndex + 1 < s.queue.length →
      s.queue.get? (s.currentSongIndex + 1) = some song →
      takeOrFetch fetch s.preloadedSounds song.id = (none, s.preloadedSounds) →
      (monitorTick fetch s).currentSongIndex = s.currentSongIndex + 1
      ∧ (monitorTick fetch (monitorTick fetch s)).currentSongIndex
          = s.currentSongIndex + 2)
    ∧ (∀ s : PlayerState,
      s.isPlaying = true → s.chan0 = .idle → s.chan1 = .idle →
      s.preloadedSounds = [] → s.currentSongIndex < s.queue.length →
      (monitorRun fetchNone (s.queue.length - s.currentSongIndex) s).currentSongIndex
          = s.queue.length
      ∧ (monitorRun fetchNone (s.queue.length - s.currentSongIndex) s).isPlaying
          = false
      ∧ (monitorRun fetchNone (s.queue.length - s.currentSongIndex) s).chan0 = .idle
      ∧ (monitorRun fetchNone (s.queue.length - s.currentSongIndex) s).chan1
          = .idle) := by
  constructor
  · intro fetch s song hp h0 h1 hlt hget hfail
    have hb : (s.getChannel s.currentChannel).getBusy = false := by
      rw [getChannel_of_idle s h0 h1]
      rfl
    have htick := monitorTick_advances fetch s hp (by omega) hb
    have hplay := playCurrentSong_fail fetch
      { s with currentSongIndex := s.currentSongIndex + 1,
               currentChannel := 1 - s.currentChannel } song hget hfail
    have hone : monitorTick fetch s =
        { s with currentSongIndex := s.currentSongIndex + 1,
                 currentChannel := 1 - s.currentChannel } := by
      rw [htick, advance_nonterminal fetch s hlt, hplay]
    constructor
    · rw [hone]
    · rw [hone]
      have hb2 : (PlayerState.getChannel
          { s with currentSongIndex := s.currentSongIndex + 1,
                   currentChannel := 1 - s.currentChannel }
          (1 - s.currentChannel)).getBusy = false := by
        rw [getChannel_of_idle
          { s with currentSongIndex := s.currentSongIndex + 1,
                   currentChannel := 1 - s.currentChannel } h0 h1]
        rfl
      have htick2 := monitorTick_advances fetch
        { s with currentSongIndex := s.currentSongIndex + 1,
                 currentChannel := 1 - s.currentChannel } hp hlt hb2
      rw [htick2]
      by_cases hterm : s.queue.length ≤ s.currentSongIndex + 2
      · rw [advance_terminal fetch _
          (by show s.queue.length ≤ s.currentSongIndex + 1 + 1; omega)]
      · rw [advance_nonterminal fetch _
          (by show s.currentSongIndex + 1 + 1 < s.queue.length; omega)]
        rw [playCurrentSong_currentSongIndex]
  · intro s hp h0 h1 hc hcur
    have := allFailRun (s.queue.length - s.currentSongIndex) s hp h0 h1 hc
      (by omega) (by omega)
    exact this

/-- Claim C4, witness: first part at the `[A, B]` session with `A`
finished and `B` unfetchable; second part at a session started with a
fetcher that always fails. -/
theorem c4_witness :
    ((monitorTick fetchNone sFin).currentSongIndex = sFin.currentSongIndex + 1
      ∧ (monitorTick fetchNone (monitorTick fetchNone sFin)).currentSongIndex
          = sFin.currentSongIndex + 2)
    ∧ ((monitorRun fetchNone (sFailStart.queue.length - sFailStart.currentSongIndex)
          sFailStart).currentSongIndex = sFailStart.queue.length
      ∧ (monitorRun fetchNone (sFailStart.queue.length - sFailStart.currentSongIndex)
          sFailStart).isPlaying = false
      ∧ (monitorRun fetchNone (sFailStart.queue.length - sFailStart.currentSongIndex)
          sFailStart).chan0 = .idle
      ∧ (monitorRun fetchNone (sFailStart.queue.length - sFailStart.currentSongIndex)
          sFailStart).chan1 = .idle) :=
  ⟨c4_fetch_failure_skips.1 fetchNone sFin songB rfl rfl rfl (by decide) rfl rfl,
   c4_fetch_failure_skips.2 sFailStart rfl rfl rfl rfl (by decide)⟩

/-- Claim C9: within a session, under every session operation (monitor
tick, preload tick, pause, resume, stop, sound completion) the queue is
unchanged and the cursor is non-decreasing; any new cursor value is
still at most the queue length (the cursor moves in steps of one, so it
cannot pass the terminal value without hitting it); `is_playing`, once
false, is never set true again by a session operation; ticks at the
terminal cursor are an identity, so the terminal transition cannot
re-fire; and the tick that advances onto the terminal cursor is the one
that sets `is_playing` to false. -/
theorem c9_cursor_monotone (fetch : String → Option Sound) (op : SessionOp)
    (s : PlayerState) :
    (applyOp fetch op s).queue = s.queue
    ∧ s.currentSongIndex ≤ (applyOp fetch op s).currentSongIndex
    ∧ ((applyOp fetch op s).currentSongIndex ≤ s.queue.length
        ∨ (applyOp fetch op s).currentSongIndex = s.currentSongIndex)
    ∧ (s.isPlaying = false → (applyOp fetch op s).isPlaying = false)
    ∧ (s.queue.length ≤ s.currentSongIndex → monitorTick fetch s = s)
    ∧ (s.isPlaying = true → s.queue.length = s.currentSongIndex + 1 →
        (s.getChannel s.currentChannel).getBusy = false →
        (monitorTick fetch s).currentSongIndex = s.queue.length
        ∧ (monitorTick fetch s).isPlaying = false) := by
  have hterm : s.queue.length ≤ s.currentSongIndex → monitorTick fetch s = s :=
    monitorTick_of_terminal fetch s
  have hfinal : s.isPlaying = true → s.queue.length = s.currentSongIndex + 1 →
      (s.getChannel s.currentChannel).getBusy = false →
      (monitorTick fetch s).currentSongIndex = s.queue.length
      ∧ (monitorTick fetch s).isPlaying = false := by
    intro hp hl hb
    rw [monitorTick_advances fetch s hp (by omega) hb,
      advance_terminal fetch s (by omega)]
    constructor
    · show s.currentSongIndex + 1 = s.queue.length
      omega
    · rfl
  cases op with
  | monitor =>
    have key : monitorTick fetch s = s
        ∨ (s.currentSongIndex < s.queue.length
            ∧ monitorTick fetch s = advanceToNextSong fetch s) := by
      unfold monitorTick
      by_cases hg : s.isPlaying = true ∧ s.currentSongIndex < s.queue.length
      · by_cases hb : (s.getChannel s.currentChannel).getBusy = true
        · left
          rw [if_pos hg, if_pos hb]
        · right
          exact ⟨hg.2, by rw [if_pos hg, if_neg hb]⟩
      · left
        rw [if_neg hg]
    have hmain : (monitorTick fetch s).queue = s.queue
        ∧ s.currentSongIndex ≤ (monitorTick fetch s).currentSongIndex
        ∧ ((monitorTick fetch s).currentSongIndex ≤ s.queue.length
            ∨ (monitorTick fetch s).currentSongIndex = s.currentSongIndex)
        ∧ (s.isPlaying = false → (monitorTick fetch s).isPlaying = false) := by
      rcases key with hid | ⟨hlt, hadv⟩
      · rw [hid]
        exact ⟨rfl, Nat.le_refl _, Or.inr rfl, fun h => h⟩
      · rw [hadv]
        by_cases ht : s.queue.length ≤ s.currentSongIndex + 1
        · rw [advance_terminal fetch s ht]
          refine ⟨rfl, Nat.le_succ _, Or.inl ?_, fun _ => rfl⟩
          show s.currentSongIndex + 1 ≤ s.queue.length
          omega
        · rw [advance_nonterminal fetch s (by omega)]
          refine ⟨?_, ?_, Or.inl ?_, ?_⟩
          · rw [playCurrentSong_queue]
          · rw [playCurrentSong_currentSongIndex]
            exact Nat.le_succ _
          · rw [playCurrentSong_currentSongIndex]
            show s.currentSongIndex + 1 ≤ s.queue.length
            omega
          · intro h
            rw [playCurrentSong_isPlaying]
            exact h
    exact ⟨hmain.1, hmain.2.1, hmain.2.2.1, hmain.2.2.2, hterm, hfinal⟩
  | preload =>
    exact ⟨preloadNextSong_queue fetch s,
      Nat.le_of_eq (preloadNextSong_currentSongIndex fetch s).symm,
      Or.inr (preloadNextSong_currentSongIndex fetch s),
      fun h => (preloadNextSong_isPlaying fetch s).trans h, hterm, hfinal⟩
  | pauseCmd =>
    exact ⟨rfl, Nat.le_refl _, Or.inr rfl, fun h => h, hterm, hfinal⟩
  | resumeCmd =>
    exact ⟨rfl, Nat.le_refl _, Or.inr rfl, fun h => h, hterm, hfinal⟩
  | stopCmd =>
    exact ⟨rfl, Nat.le_refl _, Or.inr rfl, fun _ => rfl, hterm, hfinal⟩
  | finish i =>
    exact ⟨setChannel_queue s i _, Nat.le_of_eq (setChannel_currentSongIndex s i _).symm,
      Or.inr (setChannel_currentSongIndex s i _),
      fun h => (setChannel_isPlaying s i _).trans h, hterm, hfinal⟩

/-- Claim C9, witness: the terminal transition of a one-song session. -/
theorem c9_witness :
    (monitorTick fetchAll sLast).currentSongIndex = sLast.queue.length
    ∧ (monitorTick fetchAll sLast).isPlaying = false :=
  (c9_cursor_monotone fetchAll SessionOp.monitor sLast).2.2.2.2.2 rfl (by decide) rfl

end Gapless
